import Mathlib

/-!
# Verification of the `channels` library core

A shallow embedding of `src/channels.hpp`: the single-slot `channel<T>`
and the ring-buffered `buffered_channel<T>`, with their status and error
vocabulary, modelled as pure Lean functions.

Modelling conventions:
* A C++ member function mutating `*this` becomes a function from the
  channel state to (result, new channel state).
* A `throw channel_exception(e)` becomes an `Except.error e` result paired
  with the channel state at the throw point (the object is not mutated
  before any throw in the source, so the paired state is the input state).
* The `value` out-reference of a read becomes an `Option` component of the
  result: `some v` when the source assigns `v` to the reference, `none`
  when the reference is left untouched.
* The condition-variable waits are not clocks here: a blocking operation's
  body (`read_channel` / `write_channel`) is entered exactly when the
  wait predicate holds, and a timed wait's outcome is an explicit boolean
  (`true` = predicate satisfied before expiry, `false` = wait expired),
  mirroring the boolean returned by the source's `wait_for` / `wait_until`.
-/

namespace Channels

/-- `channel_error` from the source: the two error kinds. -/
inductive channel_error
  | illegal_write
  | invalid_size
deriving DecidableEq, Repr

/-- The `_error_messages` map of `channel_exception`: the message text
associated with each error kind. -/
def error_messages : channel_error → String
  | .illegal_write => "illegal write on closed channel"
  | .invalid_size => "buffered channel cannot have size of zero"

/-- `read_status` from the source. -/
inductive read_status
  | success
  | timeout
  | closed
deriving DecidableEq, Repr

/-- `write_status` from the source. -/
inductive write_status
  | success
  | timeout
deriving DecidableEq, Repr

/-- `channel::channel_state`, the private four-state enumeration of the
single-slot channel. -/
inductive channel_state
  | writable
  | readable
  | closing
  | closed
deriving DecidableEq, Repr

/-- The single-slot `channel<Type>`: the `_value` slot and the `_state`
field (the mutex and the two condition variables carry no data). -/
structure channel (α : Type) where
  _value : α
  _state : channel_state
deriving DecidableEq, Repr

namespace channel

variable {α : Type}

/-- The constructor `channel()`: state `writable`; the slot holds the
default-constructed value `d`. -/
def init (d : α) : channel α :=
  { _value := d, _state := channel_state.writable }

/-- `channel::read_channel`, the switch on `_state` run after the wait:
`readable` delivers the slot and returns to `writable`; `closing` delivers
the slot and moves to `closed`; `closed` reports the closed status without
touching the out-reference; `writable` throws `illegal_write`. -/
def read_channel (c : channel α) :
    Except channel_error read_status × Option α × channel α :=
  match c._state with
  | channel_state.readable =>
      (Except.ok read_status.success, some c._value,
        { c with _state := channel_state.writable })
  | channel_state.closing =>
      (Except.ok read_status.success, some c._value,
        { c with _state := channel_state.closed })
  | channel_state.closed =>
      (Except.ok read_status.closed, none, c)
  | channel_state.writable =>
      (Except.error channel_error.illegal_write, none, c)

/-- `channel::write_channel`: in state `writable` it stores the value and
moves to `readable`; in every other state it throws `illegal_write`
(the `is_move_assignable` branch distinction assigns the same value either
way and is flattened). -/
def write_channel (v : α) (c : channel α) :
    Except channel_error write_status × channel α :=
  match c._state with
  | channel_state.writable =>
      (Except.ok write_status.success,
        { _value := v, _state := channel_state.readable })
  | _ =>
      (Except.error channel_error.illegal_write, c)

/-- `channel::close`: `readable → closing`, `writable → closed`, anything
else unchanged (then all waiters are notified). -/
def close (c : channel α) : channel α :=
  if c._state = channel_state.readable then
    { c with _state := channel_state.closing }
  else if c._state = channel_state.writable then
    { c with _state := channel_state.closed }
  else
    c

/-- The wait predicate of a read: `wait(_readable, lock, writable)` blocks
while `_state = writable`, i.e. proceeds once `_state ≠ writable`. -/
def read_wait_done (c : channel α) : Bool :=
  c._state != channel_state.writable

/-- The wait predicate of a write: blocks while `_state = readable`. -/
def write_wait_done (c : channel α) : Bool :=
  c._state != channel_state.readable

/-- `channel::read_for`: `wait_ok` is the boolean returned by the timed
wait (`true` = the predicate was satisfied before the timeout); on `true`
the body runs `read_channel`, on `false` it returns `timeout` with no
mutation. -/
def read_for (c : channel α) (wait_ok : Bool) :
    Except channel_error read_status × Option α × channel α :=
  if wait_ok then c.read_channel
  else (Except.ok read_status.timeout, none, c)

/-- `channel::read_until`: same shape as `read_for` with a deadline wait. -/
def read_until (c : channel α) (wait_ok : Bool) :
    Except channel_error read_status × Option α × channel α :=
  if wait_ok then c.read_channel
  else (Except.ok read_status.timeout, none, c)

/-- `channel::write_for`. -/
def write_for (v : α) (c : channel α) (wait_ok : Bool) :
    Except channel_error write_status × channel α :=
  if wait_ok then c.write_channel v
  else (Except.ok write_status.timeout, c)

/-- `channel::write_until`. -/
def write_until (v : α) (c : channel α) (wait_ok : Bool) :
    Except channel_error write_status × channel α :=
  if wait_ok then c.write_channel v
  else (Except.ok write_status.timeout, c)

end channel

/-- The ring-buffered `buffered_channel<Type>`: circular storage, the two
cursors, the pending count and the `_open` flag. -/
structure buffered_channel (α : Type) where
  _values : List α
  _read_position : Nat
  _write_position : Nat
  _count : Nat
  _open : Bool
deriving DecidableEq, Repr

namespace buffered_channel

variable {α : Type}

/-- `buffered_channel::is_readable`: `!_open || (_count > 0)`. -/
def is_readable (c : buffered_channel α) : Bool :=
  !c._open || decide (0 < c._count)

/-- `buffered_channel::is_writable`: `!_open || (_count < _values.size())`. -/
def is_writable (c : buffered_channel α) : Bool :=
  !c._open || decide (c._count < c._values.length)

/-- The constructor `buffered_channel(size)`: size zero throws
`invalid_size`; otherwise the storage is resized to `size`
default-constructed elements, cursors and count start at zero and the
channel starts open. -/
def create (size : Nat) [Inhabited α] :
    Except channel_error (buffered_channel α) :=
  if size = 0 then Except.error channel_error.invalid_size
  else Except.ok
    { _values := List.replicate size default
      _read_position := 0
      _write_position := 0
      _count := 0
      _open := true }

/-- `buffered_channel::read_channel`: drained-and-closed reports `closed`
with nothing consumed and the out-reference untouched; otherwise it pops
the element at the read cursor, advances the cursor modulo capacity and
decrements the count. -/
def read_channel [Inhabited α] (c : buffered_channel α) :
    Except channel_error read_status × Option α × buffered_channel α :=
  if !c._open && c._count = 0 then
    (Except.ok read_status.closed, none, c)
  else
    (Except.ok read_status.success, some (c._values.getD c._read_position default),
      { c with
        _read_position := (c._read_position + 1) % c._values.length
        _count := c._count - 1 })

/-- `buffered_channel::write_channel`: when `_open`, stores at the write
cursor, increments the count and advances the cursor modulo the (unchanged)
storage size; when closed it throws `illegal_write` before any mutation. -/
def write_channel (v : α) (c : buffered_channel α) :
    Except channel_error write_status × buffered_channel α :=
  if c._open then
    (Except.ok write_status.success,
      { c with
        _values := c._values.set c._write_position v
        _count := c._count + 1
        _write_position :=
          (c._write_position + 1) % (c._values.set c._write_position v).length })
  else
    (Except.error channel_error.illegal_write, c)

/-- `buffered_channel::close`: sets `_open = false` unconditionally and
notifies all waiters; pending elements are not cleared. -/
def close (c : buffered_channel α) : buffered_channel α :=
  { c with _open := false }

/-- `buffered_channel::read_for`: boolean timed-wait outcome as in the
single-slot channel. -/
def read_for [Inhabited α] (c : buffered_channel α) (wait_ok : Bool) :
    Except channel_error read_status × Option α × buffered_channel α :=
  if wait_ok then c.read_channel
  else (Except.ok read_status.timeout, none, c)

/-- `buffered_channel::read_until`. -/
def read_until [Inhabited α] (c : buffered_channel α) (wait_ok : Bool) :
    Except channel_error read_status × Option α × buffered_channel α :=
  if wait_ok then c.read_channel
  else (Except.ok read_status.timeout, none, c)

/-- `buffered_channel::write_for`. -/
def write_for (v : α) (c : buffered_channel α) (wait_ok : Bool) :
    Except channel_error write_status × buffered_channel α :=
  if wait_ok then c.write_channel v
  else (Except.ok write_status.timeout, c)

/-- `buffered_channel::write_until`. -/
def write_until (v : α) (c : buffered_channel α) (wait_ok : Bool) :
    Except channel_error write_status × buffered_channel α :=
  if wait_ok then c.write_channel v
  else (Except.ok write_status.timeout, c)

/-- One operation of the buffered channel's public interface, for
sequencing arbitrary histories. -/
inductive bop (α : Type)
  | bread
  | bwrite (v : α)
  | bclose

/-- One completed public call: a blocking `read`/`write` runs its body
exactly when its wait predicate holds (a call whose predicate stays false
blocks and never completes, so it contributes no step); `close` always
completes. -/
def bstep [Inhabited α] (c : buffered_channel α) : bop α → buffered_channel α
  | bop.bread => if c.is_readable then (c.read_channel).2.2 else c
  | bop.bwrite v => if c.is_writable then (c.write_channel v).2 else c
  | bop.bclose => c.close

/-- A sequence of completed public calls. -/
def brun [Inhabited α] (c : buffered_channel α) (ops : List (bop α)) :
    buffered_channel α :=
  ops.foldl bstep c

/-- The structural well-formedness the constructor establishes: storage of
size `N ≥ 1`, count within capacity, read cursor in range, and the write
cursor determined by read cursor and count. -/
def WF (N : Nat) (c : buffered_channel α) : Prop :=
  c._values.length = N ∧ 0 < N ∧ c._count ≤ N ∧ c._read_position < N ∧
    c._write_position = (c._read_position + c._count) % N

instance (N : Nat) (c : buffered_channel α) : Decidable (WF N c) := by
  unfold WF; infer_instance

/-- The abstraction of the ring buffer: the pending values, oldest first. -/
def queueOf [Inhabited α] (c : buffered_channel α) : List α :=
  (List.range c._count).map
    (fun i => c._values.getD ((c._read_position + i) % c._values.length) default)

end buffered_channel

end Channels

namespace Channels

open channel_state

/-- C1: after `write v` succeeds on a writable single-slot channel and
`close` is then called, the channel passes through `closing`; the next
read returns success and delivers `v`, landing in `closed`, and every
read on a closed channel returns the closed status. -/
theorem close_after_write_delivers_last_value (c : channel Nat) (v : Nat)
    (h : c._state = writable) :
    (c.write_channel v).1 = Except.ok write_status.success
    ∧ ((c.write_channel v).2)._state = readable
    ∧ (((c.write_channel v).2).close)._state = closing
    ∧ (((c.write_channel v).2).close).read_channel
        = (Except.ok read_status.success, some v,
            { _value := v, _state := closed })
    ∧ (∀ d : channel Nat, d._state = closed →
        d.read_channel = (Except.ok read_status.closed, none, d)) := by
  obtain ⟨val, st⟩ := c
  have hall : ∀ d : channel Nat, d._state = closed →
      d.read_channel = (Except.ok read_status.closed, none, d) := by
    intro d hd
    obtain ⟨dv, ds⟩ := d
    cases ds <;> simp_all [channel.read_channel]
  cases st <;> simp_all [channel.write_channel, channel.close, channel.read_channel]

/-- Witness for C1 at the fresh channel `init 0` and value 7. -/
theorem close_after_write_delivers_last_value_witness :
    (channel.init 0)._state = writable
    ∧ ((channel.init 0).write_channel 7).1 = Except.ok write_status.success
    ∧ (((channel.init 0).write_channel 7).2)._state = readable
    ∧ ((((channel.init 0).write_channel 7).2).close)._state = closing
    ∧ ((((channel.init 0).write_channel 7).2).close).read_channel
        = (Except.ok read_status.success, some 7,
            { _value := 7, _state := closed })
    ∧ (∀ d : channel Nat, d._state = closed →
        d.read_channel = (Except.ok read_status.closed, none, d)) :=
  ⟨rfl, close_after_write_delivers_last_value (channel.init 0) 7 rfl⟩

/-- C3: every state change of the single-slot channel performed by
`read_channel`, `write_channel` or `close` is one of the five listed
transitions (read: `readable → writable`, `closing → closed`; write:
`writable → readable`; close: `writable → closed`, `readable → closing`),
any other case leaving the channel unchanged; and in state `closed` no
operation changes the channel. -/
theorem single_slot_transition_invariant (c : channel Nat) (v : Nat) :
    ((c.read_channel).2.2 = c
      ∨ (c._state = readable
          ∧ (c.read_channel).2.2 = { c with _state := writable })
      ∨ (c._state = closing
          ∧ (c.read_channel).2.2 = { c with _state := closed }))
    ∧ ((c.write_channel v).2 = c
      ∨ (c._state = writable
          ∧ ((c.write_channel v).2)._state = readable))
    ∧ (c.close = c
      ∨ (c._state = writable ∧ c.close = { c with _state := closed })
      ∨ (c._state = readable ∧ c.close = { c with _state := closing }))
    ∧ (c._state = closed →
        (c.read_channel).2.2 = c ∧ (c.write_channel v).2 = c ∧ c.close = c) := by
  obtain ⟨val, st⟩ := c
  cases st <;> simp [channel.read_channel, channel.write_channel, channel.close]

/-- C4: a write against a closed channel (single-slot in `closing` or
`closed`; buffered with `_open = false`, regardless of spare capacity)
returns the `illegal_write` error and leaves the channel completely
unchanged. -/
theorem illegal_write_leaves_state_unchanged (c : channel Nat)
    (cb : buffered_channel Nat) (v w : Nat)
    (h1 : c._state = closing ∨ c._state = closed)
    (h2 : cb._open = false) :
    c.write_channel v = (Except.error channel_error.illegal_write, c)
    ∧ cb.write_channel w = (Except.error channel_error.illegal_write, cb) := by
  constructor
  · obtain ⟨val, st⟩ := c
    cases st <;> simp_all [channel.write_channel]
  · simp [buffered_channel.write_channel, h2]

/-- Witness for C4: a closed single-slot channel and a closed buffered
channel that still has spare capacity. -/
theorem illegal_write_leaves_state_unchanged_witness :
    (({ _value := 0, _state := closing } : channel Nat)._state = closing
      ∨ ({ _value := 0, _state := closing } : channel Nat)._state = closed)
    ∧ ({ _values := [0, 0], _read_position := 0, _write_position := 0,
          _count := 0, _open := false } : buffered_channel Nat)._open = false
    ∧ channel.write_channel 5 { _value := 0, _state := closing }
        = (Except.error channel_error.illegal_write,
            { _value := 0, _state := closing })
    ∧ buffered_channel.write_channel 6
        { _values := [0, 0], _read_position := 0, _write_position := 0,
          _count := 0, _open := false }
        = (Except.error channel_error.illegal_write,
            { _values := [0, 0], _read_position := 0, _write_position := 0,
              _count := 0, _open := false }) :=
  ⟨Or.inl rfl, rfl,
    illegal_write_leaves_state_unchanged
      { _value := 0, _state := closing }
      { _values := [0, 0], _read_position := 0, _write_position := 0,
        _count := 0, _open := false } 5 6 (Or.inl rfl) rfl⟩

/-- C6: a timed read or write whose wait expires (the timed wait returns
`false`) returns the timeout status, leaves the out-reference untouched
and returns the channel exactly as it was, for all four timed operations
of both channel kinds. -/
theorem timeout_leaves_state_unchanged (c : channel Nat)
    (cb : buffered_channel Nat) (v w : Nat) :
    c.read_for false = (Except.ok read_status.timeout, none, c)
    ∧ c.read_until false = (Except.ok read_status.timeout, none, c)
    ∧ channel.write_for v c false = (Except.ok write_status.timeout, c)
    ∧ channel.write_until v c false = (Except.ok write_status.timeout, c)
    ∧ cb.read_for false = (Except.ok read_status.timeout, none, cb)
    ∧ cb.read_until false = (Except.ok read_status.timeout, none, cb)
    ∧ buffered_channel.write_for w cb false = (Except.ok write_status.timeout, cb)
    ∧ buffered_channel.write_until w cb false
        = (Except.ok write_status.timeout, cb) :=
  ⟨rfl, rfl, rfl, rfl, rfl, rfl, rfl, rfl⟩

/-- C7: closing a single-slot channel with no pending value (state
`writable`) yields state `closed`; the read wait predicate
(`_state ≠ writable`) is then already satisfied, so a subsequent read does
not block, returns the closed status, leaves the out-reference untouched
and does not change the channel. -/
theorem close_empty_then_read_closed (c : channel Nat)
    (h : c._state = writable) :
    (c.close)._state = closed
    ∧ channel.read_wait_done c.close = true
    ∧ (c.close).read_channel = (Except.ok read_status.closed, none, c.close) := by
  obtain ⟨val, st⟩ := c
  cases st <;>
    simp_all [channel.close, channel.read_channel, channel.read_wait_done]

/-- Witness for C7 at the fresh channel `init 0`. -/
theorem close_empty_then_read_closed_witness :
    (channel.init 0)._state = writable
    ∧ ((channel.init 0).close)._state = closed
    ∧ channel.read_wait_done (channel.init 0).close = true
    ∧ ((channel.init 0).close).read_channel
        = (Except.ok read_status.closed, none, (channel.init 0).close) :=
  ⟨rfl, close_empty_then_read_closed (channel.init 0) rfl⟩

/-- C8: constructing a buffered channel with capacity 0 fails with
`invalid_size`; constructing with any capacity `N ≥ 1` succeeds and yields
an open channel with count 0, both cursors 0 and storage of size `N`. -/
theorem zero_capacity_construction (N : Nat) (h : 1 ≤ N) :
    (buffered_channel.create 0 : Except channel_error (buffered_channel Nat))
        = Except.error channel_error.invalid_size
    ∧ ∃ c : buffered_channel Nat, buffered_channel.create N = Except.ok c
        ∧ c._open = true ∧ c._count = 0 ∧ c._read_position = 0
        ∧ c._write_position = 0 ∧ c._values.length = N := by
  have hN : ¬ N = 0 := by omega
  refine ⟨rfl,
    ⟨{ _values := List.replicate N 0, _read_position := 0,
        _write_position := 0, _count := 0, _open := true }, ?_, rfl, rfl, rfl, rfl, ?_⟩⟩
  · simp [buffered_channel.create, hN]
  · simp

/-- Witness for C8 at capacity 3. -/
theorem zero_capacity_construction_witness :
    1 ≤ 3
    ∧ ((buffered_channel.create 0 : Except channel_error (buffered_channel Nat))
        = Except.error channel_error.invalid_size
      ∧ ∃ c : buffered_channel Nat, buffered_channel.create 3 = Except.ok c
          ∧ c._open = true ∧ c._count = 0 ∧ c._read_position = 0
          ∧ c._write_position = 0 ∧ c._values.length = 3) :=
  ⟨by decide, zero_capacity_construction 3 (by decide)⟩

/-- C9: the single-slot read step run in state `writable` (the internal
illegal-state case) raises exactly the same `illegal_write` error value —
with message "illegal write on closed channel" — that a write against a
closed channel raises; there is no distinct illegal-state error. -/
theorem internal_illegal_state_is_illegal_write (c c₂ : channel Nat) (v : Nat)
    (h : c._state = writable)
    (h2 : c₂._state = closing ∨ c₂._state = closed) :
    (c.read_channel).1 = Except.error channel_error.illegal_write
    ∧ (c₂.write_channel v).1 = Except.error channel_error.illegal_write
    ∧ error_messages channel_error.illegal_write
        = "illegal write on closed channel" := by
  refine ⟨?_, ?_, rfl⟩
  · obtain ⟨val, st⟩ := c
    cases st <;> simp_all [channel.read_channel]
  · obtain ⟨val, st⟩ := c₂
    cases st <;> simp_all [channel.write_channel]

/-- Witness for C9: a writable channel read internally and a closed
channel written to produce the same error value. -/
theorem internal_illegal_state_is_illegal_write_witness :
    (channel.init 0)._state = writable
    ∧ (({ _value := 0, _state := closed } : channel Nat)._state = closing
        ∨ ({ _value := 0, _state := closed } : channel Nat)._state = closed)
    ∧ ((channel.init 0).read_channel).1 = Except.error channel_error.illegal_write
    ∧ (channel.write_channel 4 { _value := 0, _state := closed }).1
        = Except.error channel_error.illegal_write
    ∧ error_messages channel_error.illegal_write
        = "illegal write on closed channel" :=
  ⟨rfl, Or.inr rfl,
    internal_illegal_state_is_illegal_write (channel.init 0)
      { _value := 0, _state := closed } 4 rfl (Or.inr rfl)⟩

/-- C10: a read that returns the closed status is a pure no-op for both
channel kinds: the out-reference is untouched and the returned channel is
the input channel unchanged (single-slot: state is `closed`; buffered:
`_count = 0` and `_open = false`), so repeating the read yields closed
again. -/
theorem closed_read_is_noop (c : channel Nat) (cb : buffered_channel Nat)
    (h1 : (c.read_channel).1 = Except.ok read_status.closed)
    (h2 : (cb.read_channel).1 = Except.ok read_status.closed) :
    c.read_channel = (Except.ok read_status.closed, none, c)
    ∧ c._state = closed
    ∧ cb.read_channel = (Except.ok read_status.closed, none, cb)
    ∧ cb._count = 0 ∧ cb._open = false := by
  obtain ⟨val, st⟩ := c
  have hb : cb._open = false ∧ cb._count = 0 := by
    by_contra hcond
    rw [buffered_channel.read_channel, if_neg] at h2
    · simp at h2
    · simp only [Bool.and_eq_true, Bool.not_eq_true', decide_eq_true_eq]
      intro hpair
      exact hcond ⟨hpair.1, hpair.2⟩
  cases st <;>
    simp_all [channel.read_channel, buffered_channel.read_channel]

/-- Witness for C10: a closed single-slot channel and a drained closed
buffered channel. -/
theorem closed_read_is_noop_witness :
    ((channel.read_channel { _value := 0, _state := closed } :
        Except channel_error read_status × Option Nat × channel Nat).1
      = Except.ok read_status.closed)
    ∧ ((buffered_channel.read_channel
        { _values := [0], _read_position := 0, _write_position := 0,
          _count := 0, _open := false }).1 = Except.ok read_status.closed)
    ∧ channel.read_channel { _value := 0, _state := closed }
        = (Except.ok read_status.closed, none, { _value := 0, _state := closed })
    ∧ ({ _value := 0, _state := closed } : channel Nat)._state = closed
    ∧ buffered_channel.read_channel
        { _values := [0], _read_position := 0, _write_position := 0,
          _count := 0, _open := false }
        = (Except.ok read_status.closed, none,
            { _values := [0], _read_position := 0, _write_position := 0,
              _count := 0, _open := false })
    ∧ ({ _values := [0], _read_position := 0, _write_position := 0,
          _count := 0, _open := false } : buffered_channel Nat)._count = 0
    ∧ ({ _values := [0], _read_position := 0, _write_position := 0,
          _count := 0, _open := false } : buffered_channel Nat)._open = false := by
  refine ⟨rfl, rfl, ?_⟩
  have h := closed_read_is_noop { _value := 0, _state := closed }
    { _values := [0], _read_position := 0, _write_position := 0,
      _count := 0, _open := false } rfl rfl
  exact ⟨h.1, h.2.1, h.2.2.1, h.2.2.2.1, h.2.2.2.2⟩

end Channels

namespace Channels

/-- One completed call never grows the storage: `bstep` preserves the
storage length. -/
theorem bstep_length (c : buffered_channel Nat) (op : buffered_channel.bop Nat) :
    (buffered_channel.bstep c op)._values.length = c._values.length := by
  cases op with
  | bread =>
      simp only [buffered_channel.bstep, buffered_channel.read_channel]
      split
      · split
        · rfl
        · rfl
      · rfl
  | bwrite v =>
      simp only [buffered_channel.bstep, buffered_channel.write_channel]
      split
      · split
        · simp
        · rfl
      · rfl
  | bclose => rfl

/-- One completed call keeps the count within the storage length. -/
theorem bstep_count_le (c : buffered_channel Nat) (op : buffered_channel.bop Nat)
    (h : c._count ≤ c._values.length) :
    (buffered_channel.bstep c op)._count ≤ (buffered_channel.bstep c op)._values.length := by
  rw [bstep_length]
  cases op with
  | bread =>
      simp only [buffered_channel.bstep, buffered_channel.read_channel]
      split
      · split
        · exact h
        · simp only
          omega
      · exact h
  | bwrite v =>
      simp only [buffered_channel.bstep, buffered_channel.write_channel,
        buffered_channel.is_writable]
      split
      case isTrue hwr =>
        split
        case isTrue hop =>
          simp only
          rw [Bool.or_eq_true, Bool.not_eq_true', decide_eq_true_eq] at hwr
          rcases hwr with hcl | hlt
          · rw [hop] at hcl
            exact absurd hcl (by simp)
          · omega
        case isFalse hop => exact h
      case isFalse hwr => exact h
  | bclose => exact h

/-- A whole history keeps the count within the (unchanged) storage length. -/
theorem brun_count_le (ops : List (buffered_channel.bop Nat)) (c : buffered_channel Nat)
    (h : c._count ≤ c._values.length) :
    (buffered_channel.brun c ops)._count ≤ (buffered_channel.brun c ops)._values.length
    ∧ (buffered_channel.brun c ops)._values.length = c._values.length := by
  induction ops generalizing c with
  | nil => exact ⟨h, rfl⟩
  | cons op rest ih =>
      have h1 := bstep_count_le c op h
      have h2 := ih (buffered_channel.bstep c op) h1
      exact ⟨h2.1, h2.2.trans (bstep_length c op)⟩

/-- `bstep` either keeps the `_open` flag or the operation is a `close`,
which sets it to `false`. -/
theorem bstep_open_cases (c : buffered_channel Nat) (op : buffered_channel.bop Nat) :
    (buffered_channel.bstep c op)._open = c._open
    ∨ ((buffered_channel.bstep c op)._open = false ∧ op = buffered_channel.bop.bclose) := by
  cases op with
  | bread =>
      left
      simp only [buffered_channel.bstep, buffered_channel.read_channel]
      split
      · split
        · rfl
        · rfl
      · rfl
  | bwrite v =>
      left
      simp only [buffered_channel.bstep, buffered_channel.write_channel]
      split
      · split
        · rfl
        · rfl
      · rfl
  | bclose => exact Or.inr ⟨rfl, rfl⟩

/-- Once the flag is `false`, every completed call leaves it `false`. -/
theorem bstep_open_false (c : buffered_channel Nat) (op : buffered_channel.bop Nat)
    (h : c._open = false) : (buffered_channel.bstep c op)._open = false := by
  rcases bstep_open_cases c op with h1 | h1
  · rw [h1, h]
  · exact h1.1

/-- Once the flag is `false`, it stays `false` along any history. -/
theorem brun_open_false (ops : List (buffered_channel.bop Nat)) (c : buffered_channel Nat)
    (h : c._open = false) : (buffered_channel.brun c ops)._open = false := by
  induction ops generalizing c with
  | nil => exact h
  | cons op rest ih => exact ih _ (bstep_open_false c op h)

/-- A drained closed channel (`_open = false`, `_count = 0`) is a fixed
point of every completed call. -/
theorem bstep_drained (c : buffered_channel Nat) (op : buffered_channel.bop Nat)
    (h1 : c._open = false) (h2 : c._count = 0) :
    buffered_channel.bstep c op = c := by
  obtain ⟨L, r, w, cnt, op'⟩ := c
  simp only at h1 h2
  subst h1
  subst h2
  cases op with
  | bread =>
      simp [buffered_channel.bstep, buffered_channel.is_readable,
        buffered_channel.read_channel]
  | bwrite v =>
      simp [buffered_channel.bstep, buffered_channel.is_writable,
        buffered_channel.write_channel]
  | bclose =>
      simp [buffered_channel.bstep, buffered_channel.close]

/-- A drained closed channel is a fixed point of every history. -/
theorem brun_drained (ops : List (buffered_channel.bop Nat)) (c : buffered_channel Nat)
    (h1 : c._open = false) (h2 : c._count = 0) :
    buffered_channel.brun c ops = c := by
  induction ops generalizing c with
  | nil => rfl
  | cons op rest ih =>
      have hfix := bstep_drained c op h1 h2
      calc buffered_channel.brun c (op :: rest)
          = buffered_channel.brun (buffered_channel.bstep c op) rest := rfl
        _ = buffered_channel.brun c rest := by rw [hfix]
        _ = c := ih c h1 h2

end Channels

namespace Channels

/-- C5: for a buffered channel constructed with capacity `N` and any
history of completed read/write/close calls: the count stays within
`0 ≤ count ≤ N`, the `_open` flag only ever changes from `true` to `false`
(and only a `close` changes it) and never reverts, and once the channel is
closed and drained (`_open = false`, `_count = 0`) the count stays 0 and
every subsequent read returns the closed status. -/
theorem buffered_channel_invariants (N : Nat) (c0 : buffered_channel Nat)
    (ops more : List (buffered_channel.bop Nat)) (hN : 1 ≤ N)
    (hc : buffered_channel.create N = Except.ok c0) :
    (buffered_channel.brun c0 ops)._count ≤ N
    ∧ (∀ op : buffered_channel.bop Nat,
        (buffered_channel.bstep (buffered_channel.brun c0 ops) op)._open = true →
          (buffered_channel.brun c0 ops)._open = true)
    ∧ (∀ op : buffered_channel.bop Nat,
        (buffered_channel.brun c0 ops)._open = true →
        (buffered_channel.bstep (buffered_channel.brun c0 ops) op)._open = false →
          op = buffered_channel.bop.bclose)
    ∧ ((buffered_channel.brun c0 ops)._open = false →
        (buffered_channel.brun (buffered_channel.brun c0 ops) more)._open = false)
    ∧ ((buffered_channel.brun c0 ops)._open = false →
        (buffered_channel.brun c0 ops)._count = 0 →
        (buffered_channel.brun (buffered_channel.brun c0 ops) more)._count = 0
        ∧ (buffered_channel.brun (buffered_channel.brun c0 ops) more).read_channel
            = (Except.ok read_status.closed, none,
                buffered_channel.brun (buffered_channel.brun c0 ops) more)) := by
  have hN0 : ¬ N = 0 := by omega
  have hc0 : c0 =
      { _values := List.replicate N 0,
        _read_position := 0,
        _write_position := 0,
        _count := 0,
        _open := true } := by
    rw [buffered_channel.create, if_neg hN0] at hc
    exact (Except.ok.injEq _ _).mp hc.symm
  have hinv : c0._count ≤ c0._values.length := by rw [hc0]; simp
  have hcle := brun_count_le ops c0 hinv
  refine ⟨?_, ?_, ?_, ?_, ?_⟩
  · have hlen : c0._values.length = N := by rw [hc0]; simp
    calc (buffered_channel.brun c0 ops)._count
        ≤ (buffered_channel.brun c0 ops)._values.length := hcle.1
      _ = N := hcle.2.trans hlen
  · intro op hop
    rcases bstep_open_cases (buffered_channel.brun c0 ops) op with h | h
    · rw [← h]; exact hop
    · rw [h.1] at hop; exact absurd hop (by simp)
  · intro op hop hcl
    rcases bstep_open_cases (buffered_channel.brun c0 ops) op with h | h
    · rw [h, hop] at hcl; exact absurd hcl (by simp)
    · exact h.2
  · intro hcl
    exact brun_open_false more _ hcl
  · intro hcl hcnt
    rw [brun_drained more _ hcl hcnt]
    refine ⟨hcnt, ?_⟩
    rw [buffered_channel.read_channel, if_pos]
    rw [hcl, hcnt]
    simp

/-- Witness for C5 at capacity 2 with the history write 9, read, close
followed by one further read attempt. -/
theorem buffered_channel_invariants_witness :
    (1 ≤ 2
      ∧ buffered_channel.create 2
          = Except.ok ({ _values := [0, 0], _read_position := 0, _write_position := 0, _count := 0, _open := true } : buffered_channel Nat))
    ∧ ((buffered_channel.brun ({ _values := [0, 0], _read_position := 0, _write_position := 0, _count := 0, _open := true } : buffered_channel Nat) [buffered_channel.bop.bwrite 9, buffered_channel.bop.bread, buffered_channel.bop.bclose])._count ≤ 2
      ∧ (∀ op : buffered_channel.bop Nat,
          (buffered_channel.bstep (buffered_channel.brun ({ _values := [0, 0], _read_position := 0, _write_position := 0, _count := 0, _open := true } : buffered_channel Nat) [buffered_channel.bop.bwrite 9, buffered_channel.bop.bread, buffered_channel.bop.bclose]) op)._open = true →
            (buffered_channel.brun ({ _values := [0, 0], _read_position := 0, _write_position := 0, _count := 0, _open := true } : buffered_channel Nat) [buffered_channel.bop.bwrite 9, buffered_channel.bop.bread, buffered_channel.bop.bclose])._open = true)
      ∧ (∀ op : buffered_channel.bop Nat,
          (buffered_channel.brun ({ _values := [0, 0], _read_position := 0, _write_position := 0, _count := 0, _open := true } : buffered_channel Nat) [buffered_channel.bop.bwrite 9, buffered_channel.bop.bread, buffered_channel.bop.bclose])._open = true →
          (buffered_channel.bstep (buffered_channel.brun ({ _values := [0, 0], _read_position := 0, _write_position := 0, _count := 0, _open := true } : buffered_channel Nat) [buffered_channel.bop.bwrite 9, buffered_channel.bop.bread, buffered_channel.bop.bclose]) op)._open = false →
            op = buffered_channel.bop.bclose)
      ∧ ((buffered_channel.brun ({ _values := [0, 0], _read_position := 0, _write_position := 0, _count := 0, _open := true } : buffered_channel Nat) [buffered_channel.bop.bwrite 9, buffered_channel.bop.bread, buffered_channel.bop.bclose])._open = false →
          (buffered_channel.brun (buffered_channel.brun ({ _values := [0, 0], _read_position := 0, _write_position := 0, _count := 0, _open := true } : buffered_channel Nat) [buffered_channel.bop.bwrite 9, buffered_channel.bop.bread, buffered_channel.bop.bclose]) [buffered_channel.bop.bread])._open = false)
      ∧ ((buffered_channel.brun ({ _values := [0, 0], _read_position := 0, _write_position := 0, _count := 0, _open := true } : buffered_channel Nat) [buffered_channel.bop.bwrite 9, buffered_channel.bop.bread, buffered_channel.bop.bclose])._open = false →
          (buffered_channel.brun ({ _values := [0, 0], _read_position := 0, _write_position := 0, _count := 0, _open := true } : buffered_channel Nat) [buffered_channel.bop.bwrite 9, buffered_channel.bop.bread, buffered_channel.bop.bclose])._count = 0 →
          (buffered_channel.brun (buffered_channel.brun ({ _values := [0, 0], _read_position := 0, _write_position := 0, _count := 0, _open := true } : buffered_channel Nat) [buffered_channel.bop.bwrite 9, buffered_channel.bop.bread, buffered_channel.bop.bclose]) [buffered_channel.bop.bread])._count = 0
          ∧ (buffered_channel.brun (buffered_channel.brun ({ _values := [0, 0], _read_position := 0, _write_position := 0, _count := 0, _open := true } : buffered_channel Nat) [buffered_channel.bop.bwrite 9, buffered_channel.bop.bread, buffered_channel.bop.bclose]) [buffered_channel.bop.bread]).read_channel
              = (Except.ok read_status.closed, none,
                  buffered_channel.brun (buffered_channel.brun ({ _values := [0, 0], _read_position := 0, _write_position := 0, _count := 0, _open := true } : buffered_channel Nat) [buffered_channel.bop.bwrite 9, buffered_channel.bop.bread, buffered_channel.bop.bclose]) [buffered_channel.bop.bread]))) :=
  ⟨⟨by decide, by rfl⟩,
    buffered_channel_invariants 2
      ({ _values := [0, 0], _read_position := 0, _write_position := 0, _count := 0, _open := true } : buffered_channel Nat)
      [buffered_channel.bop.bwrite 9, buffered_channel.bop.bread, buffered_channel.bop.bclose]
      [buffered_channel.bop.bread] (by decide) (by rfl)⟩

end Channels

namespace Channels

/-- Writing into an open, non-full, well-formed ring buffer succeeds,
stays well-formed and open, increments the count and appends the written
value at the end of the pending queue. -/
theorem write_channel_fifo (N v : Nat) (c : buffered_channel Nat)
    (hwf : buffered_channel.WF N c) (ho : c._open = true)
    (hlt : c._count < N) :
    (buffered_channel.write_channel v c).1 = Except.ok write_status.success
    ∧ buffered_channel.WF N (buffered_channel.write_channel v c).2
    ∧ ((buffered_channel.write_channel v c).2)._open = true
    ∧ ((buffered_channel.write_channel v c).2)._count = c._count + 1
    ∧ buffered_channel.queueOf (buffered_channel.write_channel v c).2
        = buffered_channel.queueOf c ++ [v] := by
  obtain ⟨L, r, w, cnt, op⟩ := c
  simp only [buffered_channel.WF] at hwf
  simp only at ho hlt
  obtain ⟨hlen, hNpos, hcle, hr, hw⟩ := hwf
  subst ho
  refine ⟨?_, ?_, ?_, ?_, ?_⟩
  · simp [buffered_channel.write_channel]
  · simp only [buffered_channel.write_channel, if_true, buffered_channel.WF,
      List.length_set]
    refine ⟨hlen, hNpos, by omega, hr, ?_⟩
    rw [hlen, hw, Nat.mod_add_mod]
    congr 1
  · simp [buffered_channel.write_channel]
  · simp [buffered_channel.write_channel]
  · simp only [buffered_channel.write_channel, if_true,
      buffered_channel.queueOf, List.length_set, hlen]
    rw [List.range_succ, List.map_append]
    congr 1
    · apply List.map_congr_left
      intro i hi
      have hilt : i < cnt := List.mem_range.mp hi
      have hidx : (r + i) % N < N := Nat.mod_lt _ hNpos
      have hne : (r + i) % N ≠ w := by
        rw [hw]
        intro heq
        have h2 : i % N = cnt % N := Nat.ModEq.add_left_cancel' r heq
        rw [Nat.mod_eq_of_lt (hilt.trans hlt), Nat.mod_eq_of_lt hlt] at h2
        omega
      rw [List.getD_eq_getElem _ _ (by rw [List.length_set, hlen]; exact hidx),
        List.getElem_set_ne hne.symm,
        List.getD_eq_getElem _ _ (by rw [hlen]; exact hidx)]
    · rw [List.map_cons, List.map_nil, ← hw]
      rw [List.getD_eq_getElem _ _ (by rw [List.length_set, hlen]; exact hw ▸ Nat.mod_lt _ hNpos),
        List.getElem_set_self]

end Channels

namespace Channels

/-- Reading from a well-formed ring buffer holding at least one pending
value succeeds, delivers the oldest pending value (the head of the
pending queue), stays well-formed, keeps the open flag and decrements the
count; this holds whether or not the channel is still open. -/
theorem read_channel_fifo (N : Nat) (c : buffered_channel Nat)
    (hwf : buffered_channel.WF N c) (hpos : 0 < c._count) :
    (buffered_channel.read_channel c).1 = Except.ok read_status.success
    ∧ buffered_channel.WF N (buffered_channel.read_channel c).2.2
    ∧ ((buffered_channel.read_channel c).2.2)._open = c._open
    ∧ ((buffered_channel.read_channel c).2.2)._count = c._count - 1
    ∧ (buffered_channel.read_channel c).2.1
        = some (c._values.getD c._read_position default)
    ∧ buffered_channel.queueOf c
        = c._values.getD c._read_position default
            :: buffered_channel.queueOf (buffered_channel.read_channel c).2.2 := by
  obtain ⟨L, r, w, cnt, op⟩ := c
  simp only [buffered_channel.WF] at hwf
  simp only at hpos
  obtain ⟨hlen, hNpos, hcle, hr, hw⟩ := hwf
  obtain ⟨k, rfl⟩ : ∃ k, cnt = k + 1 := ⟨cnt - 1, by omega⟩
  refine ⟨?_, ?_, ?_, ?_, ?_, ?_⟩
  · simp [buffered_channel.read_channel]
  · simp only [buffered_channel.read_channel, Nat.add_one_ne_zero,
      decide_False, Bool.and_false, Bool.false_eq_true, if_false,
      buffered_channel.WF]
    refine ⟨hlen, hNpos, by omega, by rw [hlen]; exact Nat.mod_lt _ hNpos, ?_⟩
    rw [hlen, Nat.mod_add_mod, hw]
    congr 1
    omega
  · simp [buffered_channel.read_channel]
  · simp [buffered_channel.read_channel]
  · simp [buffered_channel.read_channel]
  · simp only [buffered_channel.read_channel, Nat.add_one_ne_zero,
      decide_False, Bool.and_false, Bool.false_eq_true, if_false,
      buffered_channel.queueOf, hlen]
    rw [List.range_succ_eq_map, List.map_cons, List.map_map]
    congr 1
    · simp [Nat.mod_eq_of_lt hr]
    · apply List.map_congr_left
      intro j hj
      simp only [Function.comp_apply, Nat.succ_eq_add_one, Nat.mod_add_mod]
      have harith : r + (j + 1) = r + 1 + j := by omega
      rw [harith]

end Channels

namespace Channels

/-- C2: for an open, well-formed buffered channel of capacity `N`:
writing is enabled (the writability predicate holds, so a write proceeds
without blocking) whenever the count is below `N`; with the buffer full
(a `(K+1)`-th write with no intervening read) the writability predicate is
false, and it holds again immediately after one read; a write appends the
written value at the end of the pending queue, and a read delivers exactly
the head — the oldest unread value — of the pending queue and leaves its
tail, so values are delivered in the exact order written (FIFO). -/
theorem ring_buffer_fifo_capacity (N v : Nat) (c : buffered_channel Nat)
    (hwf : buffered_channel.WF N c) (ho : c._open = true) :
    (c._count < N → buffered_channel.is_writable c = true)
    ∧ (c._count = N → buffered_channel.is_writable c = false)
    ∧ (0 < c._count →
        buffered_channel.is_writable (buffered_channel.read_channel c).2.2 = true)
    ∧ (c._count < N →
        (buffered_channel.write_channel v c).1 = Except.ok write_status.success
        ∧ buffered_channel.WF N (buffered_channel.write_channel v c).2
        ∧ ((buffered_channel.write_channel v c).2)._open = true
        ∧ buffered_channel.queueOf (buffered_channel.write_channel v c).2
            = buffered_channel.queueOf c ++ [v])
    ∧ (0 < c._count →
        ∃ x c2, buffered_channel.read_channel c
            = (Except.ok read_status.success, some x, c2)
          ∧ buffered_channel.WF N c2
          ∧ buffered_channel.queueOf c = x :: buffered_channel.queueOf c2) := by
  have hlen : c._values.length = N := hwf.1
  have hNpos : 0 < N := hwf.2.1
  have hcle : c._count ≤ N := hwf.2.2.1
  refine ⟨?_, ?_, ?_, ?_, ?_⟩
  · intro hlt
    simp [buffered_channel.is_writable, hlen, hlt]
  · intro hfull
    simp [buffered_channel.is_writable, hlen, hfull, ho]
  · intro hpos
    obtain ⟨h1, h2, h3, h4, h5, h6⟩ := read_channel_fifo N c hwf hpos
    have hlen2 : ((buffered_channel.read_channel c).2.2)._values.length = N := h2.1
    have hcnt2 : ((buffered_channel.read_channel c).2.2)._count < N := by
      rw [h4]; omega
    simp [buffered_channel.is_writable, hlen2, hcnt2]
  · intro hlt
    obtain ⟨h1, h2, h3, h4, h5⟩ := write_channel_fifo N v c hwf ho hlt
    exact ⟨h1, h2, h3, h5⟩
  · intro hpos
    obtain ⟨h1, h2, h3, h4, h5, h6⟩ := read_channel_fifo N c hwf hpos
    refine ⟨c._values.getD c._read_position default,
      (buffered_channel.read_channel c).2.2, ?_, h2, h6⟩
    rw [← h1, ← h5]

/-- Witness for C2 at capacity 1 with a full one-element buffer. -/
theorem ring_buffer_fifo_capacity_witness :
    buffered_channel.WF 1 ({ _values := [7], _read_position := 0, _write_position := 0, _count := 1, _open := true } : buffered_channel Nat)
    ∧ ({ _values := [7], _read_position := 0, _write_position := 0, _count := 1, _open := true } : buffered_channel Nat)._open = true
    ∧ ((({ _values := [7], _read_position := 0, _write_position := 0, _count := 1, _open := true } : buffered_channel Nat))._count < 1 →
        buffered_channel.is_writable ({ _values := [7], _read_position := 0, _write_position := 0, _count := 1, _open := true } : buffered_channel Nat) = true)
    ∧ (({ _values := [7], _read_position := 0, _write_position := 0, _count := 1, _open := true } : buffered_channel Nat)._count = 1 →
        buffered_channel.is_writable ({ _values := [7], _read_position := 0, _write_position := 0, _count := 1, _open := true } : buffered_channel Nat) = false)
    ∧ (0 < ({ _values := [7], _read_position := 0, _write_position := 0, _count := 1, _open := true } : buffered_channel Nat)._count →
        buffered_channel.is_writable (buffered_channel.read_channel ({ _values := [7], _read_position := 0, _write_position := 0, _count := 1, _open := true } : buffered_channel Nat)).2.2 = true)
    ∧ (({ _values := [7], _read_position := 0, _write_position := 0, _count := 1, _open := true } : buffered_channel Nat)._count < 1 →
        (buffered_channel.write_channel 5 ({ _values := [7], _read_position := 0, _write_position := 0, _count := 1, _open := true } : buffered_channel Nat)).1 = Except.ok write_status.success
        ∧ buffered_channel.WF 1 (buffered_channel.write_channel 5 ({ _values := [7], _read_position := 0, _write_position := 0, _count := 1, _open := true } : buffered_channel Nat)).2
        ∧ ((buffered_channel.write_channel 5 ({ _values := [7], _read_position := 0, _write_position := 0, _count := 1, _open := true } : buffered_channel Nat)).2)._open = true
        ∧ buffered_channel.queueOf (buffered_channel.write_channel 5 ({ _values := [7], _read_position := 0, _write_position := 0, _count := 1, _open := true } : buffered_channel Nat)).2
            = buffered_channel.queueOf ({ _values := [7], _read_position := 0, _write_position := 0, _count := 1, _open := true } : buffered_channel Nat) ++ [5])
    ∧ (0 < ({ _values := [7], _read_position := 0, _write_position := 0, _count := 1, _open := true } : buffered_channel Nat)._count →
        ∃ x c2, buffered_channel.read_channel ({ _values := [7], _read_position := 0, _write_position := 0, _count := 1, _open := true } : buffered_channel Nat)
            = (Except.ok read_status.success, some x, c2)
          ∧ buffered_channel.WF 1 c2
          ∧ buffered_channel.queueOf ({ _values := [7], _read_position := 0, _write_position := 0, _count := 1, _open := true } : buffered_channel Nat)
              = x :: buffered_channel.queueOf c2) := by
  have hwf : buffered_channel.WF 1 ({ _values := [7], _read_position := 0, _write_position := 0, _count := 1, _open := true } : buffered_channel Nat) := by
    refine ⟨rfl, ?_, ?_, ?_, rfl⟩ <;> decide
  have h := ring_buffer_fifo_capacity 1 5
    ({ _values := [7], _read_position := 0, _write_position := 0, _count := 1, _open := true } : buffered_channel Nat) hwf rfl
  exact ⟨hwf, rfl, h.1, h.2.1, h.2.2.1, h.2.2.2.1, h.2.2.2.2⟩

end Channels
